import Mathlib

set_option maxRecDepth 100000

/-!
Verification of the Execution Gateway core (safety validator + sandboxed
executor orchestration) of the Learnline CMS repository.

The development shallowly embeds the two Python modules
`mcp-management/safety_validator.py` and `mcp-management/code_executor.py`:

* Python source strings are Lean `String`s; Python's AST is embedded as the
  inductive `Ast` covering exactly the node kinds the validator's walk
  dispatches on (plus the container nodes needed to nest them).  Python's
  `ast.walk` is a breadth-first traversal, reproduced by `walk` below.
* The external Python parser is a parameter `parse : String → ParseOutcome`:
  a call to `ast.parse` either returns a tree, raises `SyntaxError`, or
  raises some other exception; `ParseOutcome` has one constructor per case.
* The Docker runtime is external as well: one run of
  `CodeExecutor._execute_in_docker` observes the environment only through
  the events modelled by `DockerStep` (missing image, the three exception
  classes of the outer try, or a started container together with the result
  of `container.wait` and of the two `container.logs` calls).
* Python string primitives are re-implemented structurally so that the
  kernel can evaluate them on concrete inputs: `str.strip()` is `pyStrip`
  (whitespace set restricted to the ASCII whitespace characters, which
  covers every string appearing in this development), `str.split` is
  `pySplit`, `str.join` is `pyJoin`, `str.startswith`/`str.endswith` are
  `pyStartsWith`/`pyEndsWith`, and `sorted` on a collection of strings is
  `sortStrings`.
-/

/-- ASCII whitespace characters stripped by Python `str.strip()`. -/
def isPyWS (c : Char) : Bool :=
  c == ' ' || c == '\t' || c == '\n' || c == '\r' || c == '\x0b' || c == '\x0c'

/-- Strip trailing whitespace from a character list. -/
def stripTrail (l : List Char) : List Char :=
  (l.reverse.dropWhile isPyWS).reverse

/-- Strip leading and trailing whitespace from a character list. -/
def pyStripList (l : List Char) : List Char :=
  stripTrail (l.dropWhile isPyWS)

/-- Python `str.strip()` with no arguments (ASCII whitespace). -/
def pyStrip (s : String) : String :=
  String.mk (pyStripList s.data)

/-- Does the second list start with the first one? -/
def charsStartWith : List Char → List Char → Bool
  | [], _ => true
  | _ :: _, [] => false
  | p :: ps, c :: cs => c == p && charsStartWith ps cs

/-- Python `s.startswith(p)`. -/
def pyStartsWith (s p : String) : Bool :=
  charsStartWith p.data s.data

/-- Python `s.endswith(p)`. -/
def pyEndsWith (s p : String) : Bool :=
  charsStartWith p.data.reverse s.data.reverse

/-- Worker for `pySplit`; `fuel` bounds the number of consumed characters
(one per step), `acc` is the reversed current group. -/
def pySplitGo (sep : List Char) : Nat → List Char → List Char → List (List Char)
  | _, [], acc => [acc.reverse]
  | 0, l, acc => [acc.reverse ++ l]
  | fuel + 1, c :: cs, acc =>
      if charsStartWith sep (c :: cs) then
        acc.reverse :: pySplitGo sep fuel (List.drop (sep.length - 1) cs) []
      else
        pySplitGo sep fuel cs (c :: acc)

/-- Python `s.split(sep)` for a non-empty separator `sep`. -/
def pySplit (s sep : String) : List String :=
  (pySplitGo sep.data s.data.length s.data []).map String.mk

/-- Python `sep.join(items)`. -/
def pyJoin (sep : String) : List String → String
  | [] => ""
  | [s] => s
  | s :: rest => s ++ sep ++ pyJoin sep rest

/-- Python string comparison: lexicographic on code points. -/
def charListLt : List Char → List Char → Bool
  | [], [] => false
  | [], _ :: _ => true
  | _ :: _, [] => false
  | a :: as, b :: bs =>
      if a.toNat < b.toNat then true
      else if b.toNat < a.toNat then false
      else charListLt as bs

/-- Insert a string into an ascending list (Python string order is
lexicographic on code points). -/
def insertStr (s : String) : List String → List String
  | [] => [s]
  | t :: rest => if charListLt s.data t.data then s :: t :: rest else t :: insertStr s rest

/-- Python `sorted` on a collection of strings. -/
def sortStrings : List String → List String
  | [] => []
  | s :: rest => insertStr s (sortStrings rest)

/-!
## The Python AST subset walked by `SafetyValidator.validate`

The validator's scan (safety_validator.py lines 150-180) dispatches on
`ast.Import`, `ast.ImportFrom`, `ast.Call` and `ast.Attribute`; every other
node kind falls through with no check.  `Ast` has one constructor per
dispatched kind plus the containers needed to build whole programs
(`moduleNode`, `assignStmt`, `exprStmt`, `nameExpr`, `constantExpr`).
`importStmt` keeps the alias names only (`alias` nodes are walked by
`ast.walk` too, but no branch of the scan matches them); `importFromStmt`
keeps `node.module`, which is `None` for relative imports such as
`from . import os`.
-/

inductive Ast where
  | moduleNode (body : List Ast)
  | importStmt (names : List String)
  | importFromStmt (moduleName : Option String) (names : List String)
  | assignStmt (targets : List Ast) (value : Ast)
  | exprStmt (value : Ast)
  | nameExpr (id : String)
  | attributeExpr (value : Ast) (attr : String)
  | callExpr (func : Ast) (args : List Ast)
  | constantExpr

mutual

/-- Number of nodes of a tree (fuel for the breadth-first walk). -/
def astSize : Ast → Nat
  | .moduleNode body => astListSize body + 1
  | .importStmt _ => 1
  | .importFromStmt _ _ => 1
  | .assignStmt targets value => astListSize targets + astSize value + 1
  | .exprStmt value => astSize value + 1
  | .nameExpr _ => 1
  | .attributeExpr value _ => astSize value + 1
  | .callExpr func args => astSize func + astListSize args + 1
  | .constantExpr => 1

/-- Total node count of a list of trees. -/
def astListSize : List Ast → Nat
  | [] => 0
  | a :: rest => astSize a + astListSize rest

end

/-- Child nodes, in Python field order (`ast.iter_child_nodes`). -/
def childNodes : Ast → List Ast
  | .moduleNode body => body
  | .assignStmt targets value => targets ++ [value]
  | .exprStmt value => [value]
  | .attributeExpr value _ => [value]
  | .callExpr func args => func :: args
  | _ => []

theorem astListSize_append (a b : List Ast) :
    astListSize (a ++ b) = astListSize a + astListSize b := by
  induction a with
  | nil => simp [astListSize]
  | cons x rest ih => simp [astListSize, ih]; omega

theorem astListSize_childNodes_lt (n : Ast) :
    astListSize (childNodes n) < astSize n := by
  cases n <;> simp [childNodes, astSize, astListSize, astListSize_append]

/-- Breadth-first traversal of a queue of trees: pop the front node, yield
it, push its children at the back (the loop of Python's `ast.walk`).
Popping a node shrinks the total node count of the queue by exactly one, so
running with `fuel = astListSize q` drains the queue completely; the fuel
only makes the recursion structural. -/
def walkGo : Nat → List Ast → List Ast
  | _, [] => []
  | 0, q => q
  | fuel + 1, n :: rest => n :: walkGo fuel (rest ++ childNodes n)

/-- Python `ast.walk(tree)`: the tree followed by all descendants in
breadth-first order. -/
def walk (tree : Ast) : List Ast :=
  walkGo (astSize tree) [tree]

/-!
## Capability policy and the validator
-/

/-- The class attributes of `SafetyValidator` consulted by `validate`
(`self.DANGEROUS_IMPORTS`, `self.DANGEROUS_BUILTINS`,
`self.ALLOWED_IMPORTS`, `self.MAX_CODE_LENGTH`). -/
structure Policy where
  dangerousImports : List String
  dangerousBuiltins : List String
  allowedImports : List String
  maxCodeLength : Nat

/-- `SafetyValidator.DANGEROUS_IMPORTS`. -/
def DANGEROUS_IMPORTS : List String :=
  ["os", "sys", "shutil", "pathlib", "glob", "fnmatch",
   "tempfile", "io", "fileinput",
   "subprocess", "multiprocessing", "threading", "asyncio",
   "socket", "urllib", "http", "ftplib", "telnetlib",
   "smtplib", "poplib", "imaplib", "nntplib",
   "ssl", "socketserver",
   "importlib", "pkgutil", "runpy", "code", "codeop",
   "ctypes", "platform", "resource", "signal",
   "pickle", "shelve", "marshal"]

/-- `SafetyValidator.DANGEROUS_BUILTINS`. -/
def DANGEROUS_BUILTINS : List String :=
  ["eval", "exec", "compile", "__import__",
   "open", "input", "raw_input",
   "exit", "quit",
   "globals", "locals", "vars",
   "getattr", "setattr", "delattr",
   "hasattr"]

/-- `SafetyValidator.ALLOWED_IMPORTS`. -/
def ALLOWED_IMPORTS : List String :=
  ["pandas", "numpy", "networkx",
   "math", "statistics", "decimal", "fractions",
   "collections", "itertools", "functools",
   "datetime", "time", "calendar",
   "json", "csv", "re", "string",
   "code_helpers"]

/-- The policy a default `SafetyValidator()` instance carries
(`MAX_CODE_LENGTH = 1000`). -/
def defaultPolicy : Policy :=
  ⟨DANGEROUS_IMPORTS, DANGEROUS_BUILTINS, ALLOWED_IMPORTS, 1000⟩

/-- `SafetyValidator._is_import_safe`: deny if the module name is in
`DANGEROUS_IMPORTS`; otherwise allow iff some dotted prefix of it is in
`ALLOWED_IMPORTS`. -/
def _is_import_safe (pol : Policy) (moduleName : String) : Bool :=
  if moduleName ∈ pol.dangerousImports then
    false
  else
    let parts := pySplit moduleName (".")
    (List.range parts.length).any
      (fun i => decide (pyJoin (".") (parts.take (i + 1)) ∈ pol.allowedImports))

/-- The `safe_dunders` set of `SafetyValidator.validate`. -/
def safeDunders : List String :=
  ["__init__", "__str__", "__repr__", "__len__"]

/-- The violations one node of the walk contributes, following the
`isinstance` dispatch of safety_validator.py lines 150-180. -/
def nodeCheck (pol : Policy) (node : Ast) : List String :=
  match node with
  | .importStmt names =>
      (names.filter (fun m => !(_is_import_safe pol m))).map
        (fun m => "dangerous_import: " ++ m)
  | .importFromStmt moduleName _ =>
      match moduleName with
      | some m => if !(_is_import_safe pol m) then [("dangerous_import: " ++ m)] else []
      | none => []
  | .callExpr func _ =>
      match func with
      | .nameExpr funcName =>
          if funcName ∈ pol.dangerousBuiltins then
            [("dangerous_builtin: " ++ funcName)]
          else []
      | .attributeExpr (.nameExpr recv) attr =>
          if recv = "__builtins__" then
            [("builtin_access: __builtins__." ++ attr)]
          else []
      | _ => []
  | .attributeExpr _ attr =>
      if pyStartsWith attr ("__") && pyEndsWith attr ("__") then
        if attr ∈ safeDunders then [] else [("dunder_access: " ++ attr)]
      else []
  | _ => []

/-- `SafetyValidator._format_violation_message`. -/
def _format_violation_message (pol : Policy) (violation : String) : String :=
  let parts := pySplit violation (": ")
  let violationType := parts.headD ("")
  let detail := if parts.length > 1 then pyJoin (": ") parts.tail else ""
  if violationType = "dangerous_import" then
    "Import \x27" ++ detail ++ "\x27 is blocked for security. Allowed imports: " ++
      pyJoin (", ") (sortStrings pol.allowedImports)
  else if violationType = "dangerous_builtin" then
    "Function \x27" ++ detail ++ "()\x27 is blocked for security. This function can execute arbitrary code or access the file system."
  else if violationType = "builtin_access" then
    "Access to \x27" ++ detail ++ "\x27 is blocked. Direct access to Python internals is not allowed."
  else if violationType = "dunder_access" then
    "Access to dunder attribute \x27" ++ detail ++ "\x27 is blocked for security."
  else if violationType = "empty_code" then
    "No code provided to execute."
  else if violationType = "code_too_long" then
    "Code exceeds maximum length of " ++ toString pol.maxCodeLength ++ " lines."
  else if violationType = "syntax_error" then
    "Code contains syntax errors."
  else if violationType = "parse_error" then
    "Failed to parse code."
  else
    "Code validation failed: " ++ violation

/-- Result of one call to `ast.parse`: a tree, a raised `SyntaxError`
(caught at safety_validator.py line 136), or any other raised exception
(caught at line 142). -/
inductive ParseOutcome where
  | parsed (tree : Ast)
  | syntaxFailure (lineno : Nat) (msg : String)
  | otherFailure (msg : String)

/-- The dictionary returned by `SafetyValidator.validate`; when the input is
safe the Python dictionary carries no `reason` key, modelled as `reason = ""`. -/
structure ValidationResult where
  safe : Bool
  reason : String
  violations : List String
deriving DecidableEq

/-- `SafetyValidator.validate`.  `pol` stands for the validator's class
attributes and `parse` for the external `ast.parse`. -/
def validate (pol : Policy) (parse : String → ParseOutcome) (code : String) :
    ValidationResult :=
  if code = "" ∨ pyStrip code = "" then
    ⟨false, "Empty code provided", ["empty_code"]⟩
  else if (pySplit code ("\n")).length > pol.maxCodeLength then
    ⟨false,
      "Code exceeds maximum length of " ++ toString pol.maxCodeLength ++
        " lines (got " ++ toString (pySplit code ("\n")).length ++ " lines)",
      ["code_too_long"]⟩
  else
    match parse code with
    | .syntaxFailure lineno msg =>
        ⟨false, "Syntax error at line " ++ toString lineno ++ ": " ++ msg,
          ["syntax_error"]⟩
    | .otherFailure msg =>
        ⟨false, "Failed to parse code: " ++ msg, ["parse_error"]⟩
    | .parsed tree =>
        match (walk tree).flatMap (nodeCheck pol) with
        | [] => ⟨true, "", []⟩
        | v :: rest => ⟨false, _format_violation_message pol v, v :: rest⟩

/-- `SafetyValidator.get_allowed_imports`. -/
def get_allowed_imports (pol : Policy) : List String :=
  sortStrings pol.allowedImports

/-!
## The executor (`code_executor.py`)

`CodeExecutor._execute_in_docker` observes the Docker runtime only through
the following events, one value per invocation:

* `imageMissing` — `self.docker_client.images.get` raised `ImageNotFound`
  (line 190);
* `raisedContainerErr` — the outer try raised `ContainerError`, which
  carries its `exit_status` field (handler at line 262);
* `raisedApiErr` — the outer try raised `APIError` (handler at line 272);
* `raisedOtherErr` — the outer try raised any other exception (handler at
  line 282), e.g. from staging the temporary file;
* `started waitResult logsResult` — the container was started;
  `waitResult` is what `container.wait(timeout=5)` did (`Except.ok c` for a
  normal return of status code `c`, `Except.error m` for ANY raised
  exception, deadline expiry or not — caught at line 229), and
  `logsResult` is the stdout/stderr pair from the two `container.logs`
  calls, or the message of an exception they raised (caught at line 243).

The `finally` cleanup (container removal, temp-file unlink) has no
observable effect on the returned dictionary and is not modelled.
-/

/-- External behavior of the Docker runtime for one `_execute_in_docker`
invocation. -/
inductive DockerStep where
  | imageMissing
  | raisedContainerErr (exitStatus : Int) (msg : String)
  | raisedApiErr (msg : String)
  | raisedOtherErr (msg : String)
  | started (waitResult : Except String Int)
      (logsResult : Except String (String × String))

/-- The dictionary returned by `CodeExecutor._execute_in_docker`. -/
structure ExecResult where
  success : Bool
  stdout : String
  stderr : String
  exit_code : Int
  timed_out : Bool
deriving DecidableEq

/-- `CodeExecutor.TIMEOUT_SECONDS`. -/
def TIMEOUT_SECONDS : Nat := 5

/-- The notice prepended to stderr at code_executor.py line 250. -/
def timeoutNotice : String :=
  "[TIMEOUT] Code execution exceeded 5 seconds and was killed.\n"

/-- `CodeExecutor._execute_in_docker`, as a function of the Docker
runtime's behavior for this invocation. -/
def _execute_in_docker (step : DockerStep) : ExecResult :=
  match step with
  | .imageMissing =>
      ⟨false, "",
        "Docker image \x27cms-code-executor\x27 not found. Please build it first:\ncd mcp-management/code-execution && docker build -t cms-code-executor .",
        -1, false⟩
  | .raisedContainerErr exitStatus msg =>
      ⟨false, "", "Container error: " ++ msg, exitStatus, false⟩
  | .raisedApiErr msg =>
      ⟨false, "", "Docker API error: " ++ msg, -1, false⟩
  | .raisedOtherErr msg =>
      ⟨false, "", "Unexpected error: " ++ msg, -1, false⟩
  | .started waitResult logsResult =>
      let ec : Int × Bool :=
        match waitResult with
        | .ok statusCode => (statusCode, false)
        | .error _ => (-1, true)
      let exit_code := ec.1
      let timed_out := ec.2
      let streams : String × String :=
        match logsResult with
        | .ok (out, err) => (out, err)
        | .error m => ("", "Failed to capture logs: " ++ m)
      let stdout := streams.1
      let stderr :=
        if timed_out then timeoutNotice ++ streams.2 else streams.2
      ⟨exit_code == 0 && !timed_out, pyStrip stdout, pyStrip stderr,
        exit_code, timed_out⟩

/-- The MCP tool-result envelope built by `CodeExecutor._success_response`
and `CodeExecutor._error_response`: one text content block plus the
`isError` flag (absent key modelled as `false`). -/
structure Envelope where
  text : String
  isError : Bool
deriving DecidableEq

/-- `CodeExecutor._success_response`. -/
def _success_response (output : String) : Envelope :=
  ⟨if output ≠ "" then "Code executed successfully:\n\n" ++ output
    else "Code executed successfully (no output)", false⟩

/-- `CodeExecutor._error_response`. -/
def _error_response (errorMessage : String) : Envelope :=
  ⟨"❌ " ++ errorMessage, true⟩

/-- Result of one `execute_code` call together with which collaborators the
traced execution path invoked (`validatorCalled` — `self.validator.validate`,
`sandboxCalled` — `self._execute_in_docker`). -/
structure GatewayResult where
  envelope : Envelope
  validatorCalled : Bool
  sandboxCalled : Bool
deriving DecidableEq

/-- `CodeExecutor.execute_code`.  `dockerAvailable` is whether
`self.docker_client` is non-`None`; `pol`/`parse` parameterize the owned
`SafetyValidator` as in `validate`; `step` is the Docker runtime's behavior
should the sandbox be invoked. -/
def execute_code (pol : Policy) (parse : String → ParseOutcome)
    (code session_id : String) (dockerAvailable : Bool) (step : DockerStep) :
    GatewayResult :=
  if code = "" then
    ⟨_error_response ("No code provided"), false, false⟩
  else if session_id = "" then
    ⟨_error_response ("No session_id provided"), false, false⟩
  else if !dockerAvailable then
    ⟨_error_response
        ("Docker is not available. Please ensure Docker is installed and running.\nInstall Docker: https://www.docker.com/products/docker-desktop/"),
      false, false⟩
  else
    let validation_result := validate pol parse code
    if !validation_result.safe then
      ⟨_error_response
          ("Code validation failed: " ++ validation_result.reason ++
            "\n\nAllowed imports: " ++
            pyJoin (", ") (get_allowed_imports pol)),
        true, false⟩
    else
      let execution_result := _execute_in_docker step
      if execution_result.success then
        ⟨_success_response execution_result.stdout, true, true⟩
      else
        ⟨_error_response
            ("Code execution failed:\n" ++ execution_result.stderr),
          true, true⟩

/-!
## General lemmas about the embedding
-/

/-- Once the pre-checks pass and parsing succeeds, `validate` is the match
on the violations accumulated by the walk. -/
theorem validate_parsed (pol : Policy) (parse : String → ParseOutcome)
    (code : String) (tree : Ast)
    (hne : ¬(code = "" ∨ pyStrip code = ""))
    (hlen : ¬(pySplit code ("\n")).length > pol.maxCodeLength)
    (hp : parse code = .parsed tree) :
    validate pol parse code =
      match (walk tree).flatMap (nodeCheck pol) with
      | [] => ⟨true, "", []⟩
      | v :: rest => ⟨false, _format_violation_message pol v, v :: rest⟩ := by
  unfold validate
  rw [if_neg hne, if_neg hlen, hp]

/-- The violations field is exactly the walk's accumulation. -/
theorem validate_violations (pol : Policy) (parse : String → ParseOutcome)
    (code : String) (tree : Ast)
    (hne : ¬(code = "" ∨ pyStrip code = ""))
    (hlen : ¬(pySplit code ("\n")).length > pol.maxCodeLength)
    (hp : parse code = .parsed tree) :
    (validate pol parse code).violations = (walk tree).flatMap (nodeCheck pol) := by
  rw [validate_parsed pol parse code tree hne hlen hp]
  cases (walk tree).flatMap (nodeCheck pol) <;> rfl

/-- `safe` is the emptiness of the accumulated violations. -/
theorem validate_safe (pol : Policy) (parse : String → ParseOutcome)
    (code : String) (tree : Ast)
    (hne : ¬(code = "" ∨ pyStrip code = ""))
    (hlen : ¬(pySplit code ("\n")).length > pol.maxCodeLength)
    (hp : parse code = .parsed tree) :
    (validate pol parse code).safe = ((walk tree).flatMap (nodeCheck pol)).isEmpty := by
  rw [validate_parsed pol parse code tree hne hlen hp]
  cases (walk tree).flatMap (nodeCheck pol) <;> rfl

/-- A denied module name never passes `_is_import_safe`, whatever the
allow-list contains. -/
theorem is_import_safe_denied (pol : Policy) (m : String)
    (h : m ∈ pol.dangerousImports) : _is_import_safe pol m = false := by
  simp [_is_import_safe, h]

/-- Two strings with distinct characters at some position stay distinct
under arbitrary suffixes. -/
theorem append_ne_of_char_at (p q x y : String) (i : Nat) (a b : Char)
    (hp : (p.data ++ x.data).get? i = some a)
    (hq : (q.data ++ y.data).get? i = some b)
    (hab : a ≠ b) : p ++ x ≠ q ++ y := by
  intro h
  have hd : p.data ++ x.data = q.data ++ y.data := by
    have := congrArg String.data h
    rwa [String.data_append, String.data_append] at this
  rw [hd] at hp
  rw [hp] at hq
  exact hab (Option.some.inj hq)

theorem dangerous_import_ne_dunder (x y : String) :
    "dangerous_import: " ++ x ≠ "dunder_access: " ++ y :=
  append_ne_of_char_at _ _ _ _ 1 'a' 'u' rfl rfl (by decide)

theorem dangerous_builtin_ne_dunder (x y : String) :
    "dangerous_builtin: " ++ x ≠ "dunder_access: " ++ y :=
  append_ne_of_char_at _ _ _ _ 1 'a' 'u' rfl rfl (by decide)

theorem builtin_access_ne_dunder (x y : String) :
    "builtin_access: __builtins__." ++ x ≠ "dunder_access: " ++ y :=
  append_ne_of_char_at _ _ _ _ 0 'b' 'd' rfl rfl (by decide)

/-- Appending to a fixed string is injective. -/
theorem string_append_left_cancel (p x y : String)
    (h : p ++ x = p ++ y) : x = y := by
  have hd : p.data ++ x.data = p.data ++ y.data := by
    have := congrArg String.data h
    rwa [String.data_append, String.data_append] at this
  exact String.ext (List.append_cancel_left hd)

/-- Any `dunder_access` violation ever accumulated names an attribute
outside the safe-dunder allow-list: no branch of the per-node check can
produce the string `"dunder_access: a"` for an allow-listed `a`. -/
theorem dunder_violation_not_safe (pol : Policy) (nodes : List Ast) (a : String)
    (h : ("dunder_access: " ++ a) ∈ nodes.flatMap (nodeCheck pol)) :
    a ∉ safeDunders := by
  obtain ⟨n, _, hmem⟩ := List.mem_flatMap.mp h
  match n with
  | .moduleNode body => simp [nodeCheck] at hmem
  | .importStmt names =>
      simp only [nodeCheck, List.mem_map, List.mem_filter] at hmem
      obtain ⟨m, _, heq⟩ := hmem
      exact absurd heq (dangerous_import_ne_dunder m a)
  | .importFromStmt moduleName names =>
      match moduleName with
      | some m =>
          simp only [nodeCheck] at hmem
          by_cases hsafe : _is_import_safe pol m = true
          · simp [hsafe] at hmem
          · rw [Bool.not_eq_true] at hsafe
            simp only [hsafe, Bool.not_false, if_true, List.mem_singleton] at hmem
            exact absurd hmem.symm (dangerous_import_ne_dunder m a)
      | none => simp [nodeCheck] at hmem
  | .assignStmt targets value => simp [nodeCheck] at hmem
  | .exprStmt value => simp [nodeCheck] at hmem
  | .nameExpr id => simp [nodeCheck] at hmem
  | .attributeExpr value attr =>
      simp only [nodeCheck] at hmem
      by_cases hshape : (pyStartsWith attr ("__") && pyEndsWith attr ("__")) = true
      · rw [if_pos hshape] at hmem
        by_cases hin : attr ∈ safeDunders
        · simp [hin] at hmem
        · rw [if_neg hin, List.mem_singleton] at hmem
          have := string_append_left_cancel _ _ _ hmem
          rwa [← this] at hin
      · rw [if_neg hshape] at hmem
        simp at hmem
  | .callExpr func args =>
      match func with
      | .nameExpr funcName =>
          simp only [nodeCheck] at hmem
          by_cases hin : funcName ∈ pol.dangerousBuiltins
          · rw [if_pos hin, List.mem_singleton] at hmem
            exact absurd hmem.symm (dangerous_builtin_ne_dunder funcName a)
          · simp [hin] at hmem
      | .attributeExpr (.nameExpr recv) attr =>
          simp only [nodeCheck] at hmem
          by_cases hb : recv = "__builtins__"
          · rw [if_pos hb, List.mem_singleton] at hmem
            exact absurd hmem.symm (builtin_access_ne_dunder attr a)
          · simp [hb] at hmem
      | .moduleNode body => simp [nodeCheck] at hmem
      | .importStmt names => simp [nodeCheck] at hmem
      | .importFromStmt m names => simp [nodeCheck] at hmem
      | .assignStmt t v => simp [nodeCheck] at hmem
      | .exprStmt v => simp [nodeCheck] at hmem
      | .attributeExpr (.moduleNode b) attr => simp [nodeCheck] at hmem
      | .attributeExpr (.importStmt ns) attr => simp [nodeCheck] at hmem
      | .attributeExpr (.importFromStmt m ns) attr => simp [nodeCheck] at hmem
      | .attributeExpr (.assignStmt t v) attr => simp [nodeCheck] at hmem
      | .attributeExpr (.exprStmt v) attr => simp [nodeCheck] at hmem
      | .attributeExpr (.attributeExpr v b) attr => simp [nodeCheck] at hmem
      | .attributeExpr (.callExpr f as) attr => simp [nodeCheck] at hmem
      | .attributeExpr .constantExpr attr => simp [nodeCheck] at hmem
      | .callExpr f as => simp [nodeCheck] at hmem
      | .constantExpr => simp [nodeCheck] at hmem
  | .constantExpr => simp [nodeCheck] at hmem

/-- Every tree has at least one node. -/
theorem astSize_pos (n : Ast) : 1 ≤ astSize n := by
  cases n <;> simp [astSize]

/-- A queue has at most as many elements as nodes. -/
theorem length_le_astListSize (l : List Ast) : l.length ≤ astListSize l := by
  induction l with
  | nil => simp [astListSize]
  | cons n rest ih =>
      have h := astSize_pos n
      simp only [List.length_cons, astListSize]
      omega

/-- The breadth-first loop maps a queue of childless nodes to itself. -/
theorem walkGo_childless (q : List Ast) (fuel : Nat)
    (hq : ∀ s ∈ q, childNodes s = []) (hf : q.length ≤ fuel) :
    walkGo fuel q = q := by
  induction q generalizing fuel with
  | nil => cases fuel <;> rfl
  | cons n rest ih =>
      cases fuel with
      | zero => simp at hf
      | succ f =>
          show n :: walkGo f (rest ++ childNodes n) = n :: rest
          rw [hq n (List.mem_cons_self n rest), List.append_nil,
            ih f (fun s hs => hq s (List.mem_cons_of_mem n hs))
              (by simp only [List.length_cons] at hf; omega)]

/-- The walk of a module all of whose statements are leaf nodes is the
module followed by its body. -/
theorem walk_flat_module (body : List Ast)
    (hq : ∀ s ∈ body, childNodes s = []) :
    walk (.moduleNode body) = Ast.moduleNode body :: body := by
  show walkGo (astListSize body + 1) [.moduleNode body] = _
  show Ast.moduleNode body :: walkGo (astListSize body) ([] ++ childNodes (.moduleNode body)) = _
  rw [List.nil_append]
  show Ast.moduleNode body :: walkGo (astListSize body) body = _
  rw [walkGo_childless body (astListSize body) hq (length_le_astListSize body)]

/-- Splitting trailing whitespace off an appended list. -/
theorem stripTrail_append (l x : List Char) :
    stripTrail (l ++ x) =
      if (x.reverse.dropWhile isPyWS).isEmpty then stripTrail l
      else l ++ stripTrail x := by
  unfold stripTrail
  rw [List.reverse_append, List.dropWhile_append]
  by_cases h : (x.reverse.dropWhile isPyWS).isEmpty
  · simp [h]
  · simp only [h, if_false, Bool.false_eq_true, List.reverse_append, List.reverse_reverse]

/-- After the timeout notice is prepended, stripping cannot eat into its
text: the stripped stderr still starts with the notice (sans the trailing
newline, which `strip` may remove when the program's own stderr is blank). -/
theorem pyStrip_timeoutNotice (s : String) :
    ∃ rest, pyStrip (timeoutNotice ++ s) =
      "[TIMEOUT] Code execution exceeded 5 seconds and was killed." ++ rest := by
  unfold pyStrip pyStripList
  rw [String.data_append, List.dropWhile_append]
  have h1 : (timeoutNotice.data.dropWhile isPyWS).isEmpty = false := by decide
  have h2 : timeoutNotice.data.dropWhile isPyWS = timeoutNotice.data := by decide
  rw [h1, h2]
  simp only [Bool.false_eq_true, if_false]
  have h3 : timeoutNotice.data =
      ("[TIMEOUT] Code execution exceeded 5 seconds and was killed.").data ++ ['\n'] := by
    decide
  rw [h3, List.append_assoc, List.singleton_append, stripTrail_append]
  by_cases h4 : (('\n' :: s.data).reverse.dropWhile isPyWS).isEmpty
  · rw [if_pos h4]
    exact ⟨"", by decide⟩
  · rw [if_neg h4]
    exact ⟨String.mk (stripTrail ('\n' :: s.data)),
      String.ext (by rw [String.data_append])⟩

/-- A violation accumulated by the walk makes the whole validation unsafe
and shows up in the returned violations list. -/
theorem validate_unsafe_of_mem (pol : Policy) (parse : String → ParseOutcome)
    (code : String) (tree : Ast) (v : String)
    (hne : ¬(code = "" ∨ pyStrip code = ""))
    (hlen : ¬(pySplit code ("\n")).length > pol.maxCodeLength)
    (hp : parse code = .parsed tree)
    (hv : v ∈ (walk tree).flatMap (nodeCheck pol)) :
    (validate pol parse code).safe = false ∧
      v ∈ (validate pol parse code).violations := by
  constructor
  · rw [validate_safe pol parse code tree hne hlen hp]
    cases hcase : (walk tree).flatMap (nodeCheck pol) with
    | nil => rw [hcase] at hv; exact absurd hv (List.not_mem_nil v)
    | cons a l => rfl
  · rw [validate_violations pol parse code tree hne hlen hp]
    exact hv

/-!
## The claims
-/

/-- C1: for every module name `m` in the denied-modules set, validating a
program that imports `m` (e.g. the single statement `import m`) returns
`safe = false` with a `dangerous_import: m` violation, even if `m` or one
of its dotted prefixes is also in the allowed-modules set — the check in
`_is_import_safe` tests `DANGEROUS_IMPORTS` before ever consulting
`ALLOWED_IMPORTS`, so deny always wins over allow (the policy, including
its allow-list, is universally quantified here). -/
theorem C1_denied_import_unsafe (pol : Policy) (parse : String → ParseOutcome)
    (code m : String) (tree : Ast) (names : List String)
    (hne : ¬(code = "" ∨ pyStrip code = ""))
    (hlen : ¬(pySplit code ("\n")).length > pol.maxCodeLength)
    (hp : parse code = .parsed tree)
    (hw : Ast.importStmt names ∈ walk tree)
    (hm : m ∈ names)
    (hden : m ∈ pol.dangerousImports) :
    (validate pol parse code).safe = false ∧
      ("dangerous_import: " ++ m) ∈ (validate pol parse code).violations := by
  refine validate_unsafe_of_mem pol parse code tree _ hne hlen hp ?hv
  refine List.mem_flatMap.mpr ⟨Ast.importStmt names, hw, ?hin⟩
  show ("dangerous_import: " ++ m) ∈
    (names.filter (fun x => !(_is_import_safe pol x))).map
      (fun x => "dangerous_import: " ++ x)
  refine List.mem_map.mpr ⟨m, List.mem_filter.mpr ⟨hm, ?hpred⟩, rfl⟩
  show (!(_is_import_safe pol m)) = true
  rw [is_import_safe_denied pol m hden]
  rfl

/-- Witness for C1: a policy in which `"os"` is simultaneously denied and
allow-listed (and `"os"` also prefixes the allowed `"os.path"`); the
program `import os` is still rejected with `dangerous_import: os`. -/
theorem C1_witness :
    (validate ⟨["os"], [], ["os", "os.path"], 1000⟩
        (fun _ => .parsed (.moduleNode [.importStmt ["os"]])) "import os").safe = false ∧
      ("dangerous_import: " ++ "os") ∈
        (validate ⟨["os"], [], ["os", "os.path"], 1000⟩
          (fun _ => .parsed (.moduleNode [.importStmt ["os"]])) "import os").violations :=
  C1_denied_import_unsafe ⟨["os"], [], ["os", "os.path"], 1000⟩
    (fun _ => .parsed (.moduleNode [.importStmt ["os"]])) "import os" "os"
    (.moduleNode [.importStmt ["os"]]) ["os"]
    (by decide) (by decide) rfl
    (List.Mem.tail _ (List.Mem.head _))
    (List.Mem.head _) (List.Mem.head _)

/-- C2 counterexample: the bare attribute access `x = __builtins__.eval`
(the claim's own example) produces NO violation at all — the `Call` branch
never fires because the access is not a call, and the `Attribute` branch
only looks at the attribute name `eval`, which is not dunder-shaped — so
the program validates as safe, contradicting the claimed
`builtin_access: eval` rejection. -/
theorem C2_counterexample :
    validate defaultPolicy
      (fun _ => .parsed (.moduleNode
        [.assignStmt [.nameExpr "x"]
          (.attributeExpr (.nameExpr "__builtins__") "eval")]))
      "x = __builtins__.eval" = ⟨true, "", []⟩ := by
  decide

/-- C2 (amended): for every CALL whose function is an attribute access on
the literal name `__builtins__`, the validator records a
`builtin_access: __builtins__.<attr>` violation and returns `safe = false`,
regardless of any allow-list; a bare (non-call) attribute access on
`__builtins__` is only caught when the attribute name itself is
dunder-shaped. -/
theorem C2_builtins_call_flagged (pol : Policy) (parse : String → ParseOutcome)
    (code a : String) (tree : Ast) (args : List Ast)
    (hne : ¬(code = "" ∨ pyStrip code = ""))
    (hlen : ¬(pySplit code ("\n")).length > pol.maxCodeLength)
    (hp : parse code = .parsed tree)
    (hw : Ast.callExpr (.attributeExpr (.nameExpr "__builtins__") a) args ∈ walk tree) :
    (validate pol parse code).safe = false ∧
      ("builtin_access: __builtins__." ++ a) ∈ (validate pol parse code).violations := by
  refine validate_unsafe_of_mem pol parse code tree _ hne hlen hp ?hv
  refine List.mem_flatMap.mpr
    ⟨Ast.callExpr (.attributeExpr (.nameExpr "__builtins__") a) args, hw, ?hin⟩
  show ("builtin_access: __builtins__." ++ a) ∈
    (if "__builtins__" = "__builtins__"
      then [("builtin_access: __builtins__." ++ a)] else [])
  rw [if_pos rfl]
  exact List.Mem.head _

/-- Witness for C2: the call `__builtins__.eval(1)` is rejected with
`builtin_access: __builtins__.eval`. -/
theorem C2_witness :
    (validate defaultPolicy
        (fun _ => .parsed (.moduleNode
          [.exprStmt (.callExpr
            (.attributeExpr (.nameExpr "__builtins__") "eval") [.constantExpr])]))
        "__builtins__.eval(1)").safe = false ∧
      ("builtin_access: __builtins__." ++ "eval") ∈
        (validate defaultPolicy
          (fun _ => .parsed (.moduleNode
            [.exprStmt (.callExpr
              (.attributeExpr (.nameExpr "__builtins__") "eval") [.constantExpr])]))
          "__builtins__.eval(1)").violations :=
  C2_builtins_call_flagged defaultPolicy
    (fun _ => .parsed (.moduleNode
      [.exprStmt (.callExpr
        (.attributeExpr (.nameExpr "__builtins__") "eval") [.constantExpr])]))
    "__builtins__.eval(1)" "eval"
    (.moduleNode
      [.exprStmt (.callExpr
        (.attributeExpr (.nameExpr "__builtins__") "eval") [.constantExpr])])
    [.constantExpr]
    (by decide) (by decide) rfl
    (List.Mem.tail _ (List.Mem.tail _ (List.Mem.head _)))

/-- C7: every attribute access whose name is dunder-shaped (double
underscore prefix and suffix) yields a `dunder_access: <attr>` violation
unless the name is in `safeDunders` (exactly `__init__`, `__str__`,
`__repr__`, `__len__`); and no `dunder_access` violation for one of those
four names can ever be recorded. -/
theorem C7_dunder_policy (pol : Policy) (parse : String → ParseOutcome)
    (code : String) (tree : Ast)
    (hne : ¬(code = "" ∨ pyStrip code = ""))
    (hlen : ¬(pySplit code ("\n")).length > pol.maxCodeLength)
    (hp : parse code = .parsed tree) :
    (∀ v attr, Ast.attributeExpr v attr ∈ walk tree →
        pyStartsWith attr ("__") = true → pyEndsWith attr ("__") = true →
        attr ∉ safeDunders →
        (validate pol parse code).safe = false ∧
          ("dunder_access: " ++ attr) ∈ (validate pol parse code).violations) ∧
    (∀ attr, attr ∈ safeDunders →
        ("dunder_access: " ++ attr) ∉ (validate pol parse code).violations) := by
  constructor
  · intro v attr hw hst hen hns
    refine validate_unsafe_of_mem pol parse code tree _ hne hlen hp ?hv
    refine List.mem_flatMap.mpr ⟨Ast.attributeExpr v attr, hw, ?hin⟩
    show ("dunder_access: " ++ attr) ∈
      (if pyStartsWith attr ("__") && pyEndsWith attr ("__") then
        if attr ∈ safeDunders then [] else [("dunder_access: " ++ attr)]
      else [])
    rw [hst, hen]
    simp [hns]
  · intro attr hin hmem
    rw [validate_violations pol parse code tree hne hlen hp] at hmem
    exact dunder_violation_not_safe pol (walk tree) attr hmem hin

/-- Witness for C7: `x.__dict__` is rejected with `dunder_access: __dict__`,
while no `dunder_access: __len__` can be recorded for the same program. -/
theorem C7_witness :
    ((validate defaultPolicy
        (fun _ => .parsed (.moduleNode
          [.exprStmt (.attributeExpr (.nameExpr "x") "__dict__")]))
        "x.__dict__").safe = false ∧
      ("dunder_access: " ++ "__dict__") ∈
        (validate defaultPolicy
          (fun _ => .parsed (.moduleNode
            [.exprStmt (.attributeExpr (.nameExpr "x") "__dict__")]))
          "x.__dict__").violations) ∧
    ("dunder_access: " ++ "__len__") ∉
      (validate defaultPolicy
        (fun _ => .parsed (.moduleNode
          [.exprStmt (.attributeExpr (.nameExpr "x") "__dict__")]))
        "x.__dict__").violations :=
  ⟨(C7_dunder_policy defaultPolicy
      (fun _ => .parsed (.moduleNode
        [.exprStmt (.attributeExpr (.nameExpr "x") "__dict__")]))
      "x.__dict__" (.moduleNode
        [.exprStmt (.attributeExpr (.nameExpr "x") "__dict__")])
      (by decide) (by decide) rfl).1
    (.nameExpr "x") "__dict__"
    (List.Mem.tail _ (List.Mem.tail _ (List.Mem.head _)))
    (by decide) (by decide) (by decide),
  (C7_dunder_policy defaultPolicy
      (fun _ => .parsed (.moduleNode
        [.exprStmt (.attributeExpr (.nameExpr "x") "__dict__")]))
      "x.__dict__" (.moduleNode
        [.exprStmt (.attributeExpr (.nameExpr "x") "__dict__")])
      (by decide) (by decide) rfl).2
    "__len__" (by decide)⟩

/-- The per-node check ignores every relative from-import. -/
theorem flatMap_nodeCheck_relative (pol : Policy) (body : List Ast)
    (hall : ∀ s ∈ body, ∃ names, s = Ast.importFromStmt none names) :
    body.flatMap (nodeCheck pol) = [] := by
  induction body with
  | nil => rfl
  | cons s rest ih =>
      rw [List.flatMap_cons]
      obtain ⟨names, hseq⟩ := hall s (List.mem_cons_self s rest)
      rw [hseq]
      show ([] : List String) ++ rest.flatMap (nodeCheck pol) = []
      rw [List.nil_append]
      exact ih (fun t ht => hall t (List.mem_cons_of_mem _ ht))

/-- C8: a from-import with no module part (a relative import such as
`from . import os`) is never checked against the module policy — the
`node.module` guard skips it — so a program consisting only of such
imports validates as safe, whatever the policy. -/
theorem C8_relative_import_unchecked (pol : Policy) (parse : String → ParseOutcome)
    (code : String) (body : List Ast)
    (hne : ¬(code = "" ∨ pyStrip code = ""))
    (hlen : ¬(pySplit code ("\n")).length > pol.maxCodeLength)
    (hp : parse code = .parsed (.moduleNode body))
    (hall : ∀ s ∈ body, ∃ names, s = Ast.importFromStmt none names) :
    validate pol parse code = ⟨true, "", []⟩ := by
  have hchild : ∀ s ∈ body, childNodes s = [] := by
    intro s hs
    obtain ⟨names, rfl⟩ := hall s hs
    rfl
  have hbody := flatMap_nodeCheck_relative pol body hall
  have hfm : (walk (.moduleNode body)).flatMap (nodeCheck pol) = [] := by
    rw [walk_flat_module body hchild, List.flatMap_cons]
    show ([] : List String) ++ body.flatMap (nodeCheck pol) = []
    rw [List.nil_append, hbody]
  rw [validate_parsed pol parse code _ hne hlen hp, hfm]

/-- Witness for C8: `from . import os` validates as safe under the default
policy even though `os` is a denied module name. -/
theorem C8_witness :
    validate defaultPolicy
      (fun _ => .parsed (.moduleNode [.importFromStmt none ["os"]]))
      "from . import os" = ⟨true, "", []⟩ :=
  C8_relative_import_unchecked defaultPolicy
    (fun _ => .parsed (.moduleNode [.importFromStmt none ["os"]]))
    "from . import os" [.importFromStmt none ["os"]]
    (by decide) (by decide) rfl
    (fun s hs => ⟨["os"], List.mem_singleton.mp hs⟩)

/-- C4 counterexample: a parse failure in which `ast.parse` raises
something other than `SyntaxError` (e.g. a `RecursionError` on deeply
nested input) is converted to the violation kind `parse_error`, not
`syntax_error`, so "any input that fails to parse returns the sole
violation kind syntax_error" is false; `validate` still does not raise. -/
theorem C4_counterexample :
    (validate defaultPolicy
        (fun _ => .otherFailure "maximum recursion depth exceeded")
        "x").violations = ["parse_error"] ∧
      (validate defaultPolicy
        (fun _ => .otherFailure "maximum recursion depth exceeded")
        "x").violations ≠ ["syntax_error"] ∧
      (validate defaultPolicy
        (fun _ => .otherFailure "maximum recursion depth exceeded")
        "x").safe = false := by
  decide

/-- C4 (amended): `validate` is a total function of the parse outcome — no
exception propagates — and a parse failure yields `safe = false` with the
sole violation `syntax_error` when the parser raised a syntax error, and
with the sole violation `parse_error` for any other parsing exception. -/
theorem C4_parse_failure (pol : Policy) (parse : String → ParseOutcome)
    (code msg : String) (lineno : Nat)
    (hne : ¬(code = "" ∨ pyStrip code = ""))
    (hlen : ¬(pySplit code ("\n")).length > pol.maxCodeLength) :
    (parse code = .syntaxFailure lineno msg →
      validate pol parse code =
        ⟨false, "Syntax error at line " ++ toString lineno ++ ": " ++ msg,
          ["syntax_error"]⟩) ∧
    (parse code = .otherFailure msg →
      validate pol parse code =
        ⟨false, "Failed to parse code: " ++ msg, ["parse_error"]⟩) := by
  constructor <;> intro hp <;> unfold validate <;> rw [if_neg hne, if_neg hlen, hp]

/-- Witness for C4 at a concrete syntax error. -/
theorem C4_witness :
    validate defaultPolicy (fun _ => .syntaxFailure 1 "invalid syntax") "def f(" =
      ⟨false, "Syntax error at line " ++ toString 1 ++ ": " ++ "invalid syntax",
        ["syntax_error"]⟩ :=
  (C4_parse_failure defaultPolicy (fun _ => .syntaxFailure 1 "invalid syntax")
    "def f(" "invalid syntax" 1 (by decide) (by decide)).1 rfl

/-- C3 counterexample: on the container-error return path the outcome
copies the exception's `exit_status` while setting `success = False`; with
exit status `0` this gives `success = false`, `exit_code = 0`,
`timed_out = false`, contradicting the claimed equivalence on every path. -/
theorem C3_counterexample :
    (_execute_in_docker (.raisedContainerErr 0 "exited")).success = false ∧
      (_execute_in_docker (.raisedContainerErr 0 "exited")).exit_code = 0 ∧
      (_execute_in_docker (.raisedContainerErr 0 "exited")).timed_out = false := by
  decide

/-- C3 (amended): on every return path of `_execute_in_docker`, provided a
raised `ContainerError` never carries exit status `0` (docker-py only
raises it for non-zero statuses), the outcome satisfies
`success = true ↔ exit_code = 0 ∧ timed_out = false`; without that proviso
the forward implication `success → exit_code = 0 ∧ ¬timed_out` still holds
on every path, but the converse fails on the container-error path. -/
theorem C3_success_iff (step : DockerStep)
    (h : ∀ msg, step ≠ DockerStep.raisedContainerErr 0 msg) :
    (_execute_in_docker step).success = true ↔
      ((_execute_in_docker step).exit_code = 0 ∧
        (_execute_in_docker step).timed_out = false) := by
  cases step with
  | imageMissing => simp [_execute_in_docker]
  | raisedContainerErr exitStatus msg =>
      have hne : exitStatus ≠ 0 := fun h0 => h msg (by rw [h0])
      simp [_execute_in_docker, hne]
  | raisedApiErr m => simp [_execute_in_docker]
  | raisedOtherErr m => simp [_execute_in_docker]
  | started waitResult logsResult =>
      cases waitResult with
      | ok statusCode => simp [_execute_in_docker]
      | error e => simp [_execute_in_docker]

/-- Witness for C3 at a normal successful run. -/
theorem C3_witness :
    (_execute_in_docker (.started (.ok 0) (.ok ("out", "")))).success = true ↔
      ((_execute_in_docker (.started (.ok 0) (.ok ("out", "")))).exit_code = 0 ∧
        (_execute_in_docker (.started (.ok 0) (.ok ("out", "")))).timed_out = false) :=
  C3_success_iff (.started (.ok 0) (.ok ("out", "")))
    (fun _ h => DockerStep.noConfusion h)

/-- C9: ANY exception raised while waiting for the container — deadline
expiry or unrelated infrastructure failure alike — produces
`timed_out = true`, `exit_code = -1`, `success = false`, and the outcome is
literally identical whatever the exception was: the `ExecutionOutcome`
cannot distinguish a real timeout from a wait-stage infrastructure error. -/
theorem C9_wait_exception_timeout (werr : String)
    (logsResult : Except String (String × String)) :
    ((_execute_in_docker (.started (.error werr) logsResult)).timed_out = true ∧
      (_execute_in_docker (.started (.error werr) logsResult)).exit_code = -1 ∧
      (_execute_in_docker (.started (.error werr) logsResult)).success = false) ∧
    (∀ werr2 : String,
      _execute_in_docker (.started (.error werr) logsResult) =
        _execute_in_docker (.started (.error werr2) logsResult)) :=
  ⟨by simp [_execute_in_docker], fun werr2 => rfl⟩

/-- The concrete run used to settle C5: `import time; time.sleep(10)`
passes validation (`time` is allow-listed), the container wait raises, and
the program produced no output. -/
def c5Run : GatewayResult :=
  execute_code defaultPolicy
    (fun _ => .parsed (.moduleNode
      [.importStmt ["time"],
       .exprStmt (.callExpr
         (.attributeExpr (.nameExpr "time") "sleep") [.constantExpr])]))
    "import time\ntime.sleep(10)" "sess" true
    (.started (.error "read timed out") (.ok ("", "")))

/-- C5 counterexample: on a genuine timeout the caller-facing envelope's
text does NOT begin with the timeout notice — it begins with the generic
failure header `❌ Code execution failed:`; the `[TIMEOUT]` notice only
follows after that header. -/
theorem C5_counterexample :
    c5Run.envelope.isError = true ∧
      (_execute_in_docker
        (.started (.error "read timed out") (.ok ("", "")))).timed_out = true ∧
      pyStartsWith c5Run.envelope.text ("[TIMEOUT]") = false ∧
      pyStartsWith c5Run.envelope.text ("❌ Code execution failed:") = true := by
  decide

/-- C5 (amended): for every run whose container wait raised (so
`timed_out = true`), the error envelope's text is the generic failure
header `❌ Code execution failed:` immediately followed by the stderr,
which itself begins with the explicit timeout notice `[TIMEOUT] Code
execution exceeded 5 seconds and was killed.` — i.e. the timeout notice is
prefixed to the program's own stderr, but the envelope text begins with
the failure header, not with the notice. -/
theorem C5_timeout_envelope (pol : Policy) (parse : String → ParseOutcome)
    (code session_id werr : String)
    (logsResult : Except String (String × String))
    (hc : ¬code = "") (hs : ¬session_id = "")
    (hsafe : (validate pol parse code).safe = true) :
    (execute_code pol parse code session_id true
        (.started (.error werr) logsResult)).envelope.isError = true ∧
    ∃ rest,
      (execute_code pol parse code session_id true
          (.started (.error werr) logsResult)).envelope.text =
        "❌ Code execution failed:\n[TIMEOUT] Code execution exceeded 5 seconds and was killed." ++
          rest := by
  have hsucc : (_execute_in_docker (.started (.error werr) logsResult)).success = false := by
    simp [_execute_in_docker]
  have hrun : execute_code pol parse code session_id true
      (.started (.error werr) logsResult) =
      ⟨_error_response ("Code execution failed:\n" ++
        (_execute_in_docker (.started (.error werr) logsResult)).stderr),
        true, true⟩ := by
    unfold execute_code
    rw [if_neg hc, if_neg hs]
    simp only [hsafe, hsucc, Bool.not_true, Bool.false_eq_true, if_false]
  have hstderr : ∃ s2,
      (_execute_in_docker (.started (.error werr) logsResult)).stderr =
        pyStrip (timeoutNotice ++ s2) := by
    cases logsResult with
    | ok p => exact ⟨p.2, by cases p; simp [_execute_in_docker]⟩
    | error m => exact ⟨"Failed to capture logs: " ++ m, by simp [_execute_in_docker]⟩
  obtain ⟨s2, hs2⟩ := hstderr
  obtain ⟨rest, hrest⟩ := pyStrip_timeoutNotice s2
  refine ⟨by rw [hrun]; rfl, ⟨rest, ?htext⟩⟩
  rw [hrun]
  show "❌ " ++ ("Code execution failed:\n" ++
    (_execute_in_docker (.started (.error werr) logsResult)).stderr) = _
  rw [hs2, hrest, ← String.append_assoc, ← String.append_assoc]
  have hlit : "❌ " ++ "Code execution failed:\n" ++
      "[TIMEOUT] Code execution exceeded 5 seconds and was killed." =
      "❌ Code execution failed:\n[TIMEOUT] Code execution exceeded 5 seconds and was killed." := by
    decide
  rw [hlit]

/-- Witness for C5 at the concrete timed-out run of `c5Run`. -/
theorem C5_witness :
    c5Run.envelope.isError = true ∧
    ∃ rest, c5Run.envelope.text =
      "❌ Code execution failed:\n[TIMEOUT] Code execution exceeded 5 seconds and was killed." ++
        rest :=
  C5_timeout_envelope defaultPolicy
    (fun _ => .parsed (.moduleNode
      [.importStmt ["time"],
       .exprStmt (.callExpr
         (.attributeExpr (.nameExpr "time") "sleep") [.constantExpr])]))
    "import time\ntime.sleep(10)" "sess" "read timed out" (.ok ("", ""))
    (by decide) (by decide) (by decide)

/-- C6: empty source text or empty session identifier is rejected with an
error envelope before the Validator or the Sandbox is ever invoked; an
empty source yields the `No code provided` message. -/
theorem C6_empty_input_fast_path (pol : Policy) (parse : String → ParseOutcome)
    (code session_id : String) (dockerAvailable : Bool) (step : DockerStep)
    (h : code = "" ∨ session_id = "") :
    (execute_code pol parse code session_id dockerAvailable step).envelope.isError = true ∧
    (execute_code pol parse code session_id dockerAvailable step).validatorCalled = false ∧
    (execute_code pol parse code session_id dockerAvailable step).sandboxCalled = false ∧
    (code = "" →
      (execute_code pol parse code session_id dockerAvailable step).envelope.text =
        "❌ No code provided") := by
  by_cases hc : code = ""
  · subst hc
    refine ⟨rfl, rfl, rfl, fun _ => rfl⟩
  · have hsid : session_id = "" := h.resolve_left hc
    subst hsid
    unfold execute_code
    rw [if_neg hc, if_pos rfl]
    exact ⟨rfl, rfl, rfl, fun he => absurd he hc⟩

/-- Witness for C6 at the empty source string. -/
theorem C6_witness :
    (execute_code defaultPolicy (fun _ => .otherFailure "unused") "" "session-1"
        true DockerStep.imageMissing).envelope.isError = true ∧
    (execute_code defaultPolicy (fun _ => .otherFailure "unused") "" "session-1"
        true DockerStep.imageMissing).validatorCalled = false ∧
    (execute_code defaultPolicy (fun _ => .otherFailure "unused") "" "session-1"
        true DockerStep.imageMissing).sandboxCalled = false ∧
    ("" = "" →
      (execute_code defaultPolicy (fun _ => .otherFailure "unused") "" "session-1"
          true DockerStep.imageMissing).envelope.text = "❌ No code provided") :=
  C6_empty_input_fast_path defaultPolicy (fun _ => .otherFailure "unused")
    "" "session-1" true DockerStep.imageMissing (Or.inl rfl)

/-- Appending cannot shrink a string below the first summand's length. -/
theorem append_ne_of_longer (p q x : String)
    (h : q.data.length < p.data.length) : p ++ x ≠ q := by
  intro he
  have hl := congrArg (fun s => s.data.length) he
  simp only [String.data_append, List.length_append] at hl
  omega

/-- C10: a whitespace-only but non-empty source string passes the fast-path
empty-input check (`if not code` sees a truthy string): the Sandbox is
never invoked, and the caller receives either the
infrastructure-unavailable envelope (Docker client missing) or the
Validator's `Empty code provided` reason with the allowed-imports list
appended — never the fast-path `No code provided` envelope.  (A non-empty
session identifier is assumed, since the session check sits between the
two.) -/
theorem C10_whitespace_code (pol : Policy) (parse : String → ParseOutcome)
    (code session_id : String) (dockerAvailable : Bool) (step : DockerStep)
    (hc : ¬code = "") (hw : pyStrip code = "") (hs : ¬session_id = "") :
    (execute_code pol parse code session_id dockerAvailable step).envelope.text ≠
      "❌ No code provided" ∧
    (execute_code pol parse code session_id dockerAvailable step).sandboxCalled = false ∧
    (dockerAvailable = false →
      (execute_code pol parse code session_id dockerAvailable step).envelope.text =
        "❌ Docker is not available. Please ensure Docker is installed and running.\nInstall Docker: https://www.docker.com/products/docker-desktop/" ∧
      (execute_code pol parse code session_id dockerAvailable step).validatorCalled = false) ∧
    (dockerAvailable = true →
      (execute_code pol parse code session_id dockerAvailable step).validatorCalled = true ∧
      (execute_code pol parse code session_id dockerAvailable step).envelope.isError = true ∧
      (execute_code pol parse code session_id dockerAvailable step).envelope.text =
        "❌ Code validation failed: Empty code provided\n\nAllowed imports: " ++
          pyJoin (", ") (get_allowed_imports pol)) := by
  have hval : validate pol parse code = ⟨false, "Empty code provided", ["empty_code"]⟩ := by
    unfold validate
    rw [if_pos (Or.inr hw)]
  cases dockerAvailable with
  | false =>
      have hrun : execute_code pol parse code session_id false step =
          ⟨_error_response
            ("Docker is not available. Please ensure Docker is installed and running.\nInstall Docker: https://www.docker.com/products/docker-desktop/"),
            false, false⟩ := by
        unfold execute_code
        rw [if_neg hc, if_neg hs]
        rfl
      rw [hrun]
      refine ⟨by decide, rfl, fun _ => ⟨rfl, rfl⟩, fun he => Bool.noConfusion he⟩
  | true =>
      have hrun : execute_code pol parse code session_id true step =
          ⟨_error_response
            ("Code validation failed: " ++ "Empty code provided" ++
              "\n\nAllowed imports: " ++ pyJoin (", ") (get_allowed_imports pol)),
            true, false⟩ := by
        unfold execute_code
        rw [if_neg hc, if_neg hs]
        simp only [hval, Bool.not_true, Bool.not_false, Bool.false_eq_true, if_false, if_true]
      rw [hrun]
      have htext : ("❌ " ++ ("Code validation failed: " ++ "Empty code provided" ++
          "\n\nAllowed imports: " ++ pyJoin (", ") (get_allowed_imports pol))) =
          "❌ Code validation failed: Empty code provided\n\nAllowed imports: " ++
            pyJoin (", ") (get_allowed_imports pol) := by
        rw [← String.append_assoc, ← String.append_assoc, ← String.append_assoc]
        have hlit : "❌ " ++ "Code validation failed: " ++ "Empty code provided" ++
            "\n\nAllowed imports: " =
            "❌ Code validation failed: Empty code provided\n\nAllowed imports: " := by
          decide
        rw [hlit]
      refine ⟨?hne, rfl, fun he => Bool.noConfusion he, fun _ => ⟨rfl, rfl, ?ht⟩⟩
      · show ("❌ " ++ _) ≠ _
        rw [htext]
        exact append_ne_of_longer _ _ _ (by decide)
      · show ("❌ " ++ _) = _
        rw [htext]

/-- Witness for C10: the single-space source with Docker available. -/
theorem C10_witness :
    (execute_code defaultPolicy (fun _ => .otherFailure "unused") " " "sess"
        true DockerStep.imageMissing).envelope.text ≠ "❌ No code provided" ∧
    (execute_code defaultPolicy (fun _ => .otherFailure "unused") " " "sess"
        true DockerStep.imageMissing).sandboxCalled = false ∧
    (true = false →
      (execute_code defaultPolicy (fun _ => .otherFailure "unused") " " "sess"
          true DockerStep.imageMissing).envelope.text =
        "❌ Docker is not available. Please ensure Docker is installed and running.\nInstall Docker: https://www.docker.com/products/docker-desktop/" ∧
      (execute_code defaultPolicy (fun _ => .otherFailure "unused") " " "sess"
          true DockerStep.imageMissing).validatorCalled = false) ∧
    (true = true →
      (execute_code defaultPolicy (fun _ => .otherFailure "unused") " " "sess"
          true DockerStep.imageMissing).validatorCalled = true ∧
      (execute_code defaultPolicy (fun _ => .otherFailure "unused") " " "sess"
          true DockerStep.imageMissing).envelope.isError = true ∧
      (execute_code defaultPolicy (fun _ => .otherFailure "unused") " " "sess"
          true DockerStep.imageMissing).envelope.text =
        "❌ Code validation failed: Empty code provided\n\nAllowed imports: " ++
          pyJoin (", ") (get_allowed_imports defaultPolicy)) :=
  C10_whitespace_code defaultPolicy (fun _ => .otherFailure "unused") " " "sess"
    true DockerStep.imageMissing (by decide) (by decide) (by decide)
